import Mathlib

/-!
Verification of the deacsm worker module (`src/worker.py`).

The development shallowly embeds the three workflow bodies of `WorkerThread`
(`_login_adobe`, `_fulfill_acsm`, `_decrypt_epub`) and the dispatching
`WorkerThread.run` as pure Lean functions that produce the list of observable
events of one run: Qt signal emissions (`progress`, `finished`), working
directory changes, file renames/removals, and the invocations of the external
decrypt/patch collaborators.

External collaborators (the calibre-plugin account/fulfillment library, the
HTTP downloader, `decryptBook`, `patch_drm_into_pdf`, and the XML parser
`lxml.etree.fromstring`) are modelled by an environment record that fixes the
result of each call in the run under consideration; a result of
`Except.error e` models the call raising a Python exception whose `str` is
`e`.  Filesystem primitives (`open`, `shutil.move`, `os.rename`, `os.remove`,
`os.chdir`) are modelled as succeeding, and `zipfile.ZipFile(f, "a")` together
with `writestr` is modelled per its documented semantics: appending a new
entry to the archive without touching the bytes of existing entries.

The XML reply handed to `lxml` is modelled as a rose tree of elements with
namespace-expanded tags (lxml renders `{ns}tag` for a namespaced tag), an
optional text, and a child list; `Element.find("./a/b/c")` is modelled by
`findPath`, a first-match-in-document-order search with backtracking, which
is the ElementPath semantics used by the worker.
-/

namespace Deacsm

/-- An XML element: namespace-expanded tag, optional text, children. -/
inductive XNode where
  | elem (tag : String) (text : Option String) (children : List XNode)

def XNode.tag : XNode → String
  | XNode.elem t _ _ => t

def XNode.text : XNode → Option String
  | XNode.elem _ x _ => x

def XNode.children : XNode → List XNode
  | XNode.elem _ _ c => c

/-- ElementPath search over a list of candidate children: find the first node
(in document order, with backtracking) reachable by the tag path. -/
def findPathFrom : List String → List XNode → Option XNode
  | [], _ => none
  | t :: rest, cs =>
      cs.findSome? (fun c =>
        if XNode.tag c = t then
          match rest with
          | [] => some c
          | _ :: _ => findPathFrom rest (XNode.children c)
        else none)

/-- Model of lxml `node.find("./t1/t2/...")`. -/
def findPath (n : XNode) (p : List String) : Option XNode :=
  findPathFrom p (XNode.children n)

/-- Namespace-expanded Adept tag, mirroring `adNS` in `_fulfill_acsm`. -/
def adNS (tag : String) : String :=
  "\x7bhttp://ns.adobe.com/adept\x7d" ++ tag

/-- Namespace-expanded Dublin Core tag, mirroring `adDC` in `_fulfill_acsm`. -/
def adDC (tag : String) : String :=
  "\x7bhttp://purl.org/dc/elements/1.1/\x7d" ++ tag

def srcPath : List String :=
  [adNS "fulfillmentResult", adNS "resourceItemInfo", adNS "src"]

def licenseTokenPath : List String :=
  [adNS "fulfillmentResult", adNS "resourceItemInfo", adNS "licenseToken"]

def metadataPath : List String :=
  [adNS "fulfillmentResult", adNS "resourceItemInfo", adNS "metadata"]

def rightsResourcePath : List String :=
  [adNS "licenseToken", adNS "resource"]

/-- Lines 125-130 of `worker.py`: the guarded extraction of `download_url`
and `license_token_node`.  `find(...).text` on a missing `src` element raises
`AttributeError`, which the bare `except` turns into the parse failure
(`none` here).  The `licenseToken` lookup has no `.text`, so a missing
`licenseToken` element cannot raise: the parse succeeds and simply carries
`none` as the token. -/
def parseFulfillmentReply (reply : XNode) : Option (Option String × Option XNode) :=
  match findPath reply srcPath with
  | none => none
  | some srcNode => some (XNode.text srcNode, findPath reply licenseTokenPath)

/-- Lines 137-142 of `worker.py`: best-effort title extraction.  A missing
`metadata` element or a missing `dc:title` element raises `AttributeError`
inside the inner `try`, caught and replaced by `"Book"`.  A `title` element
whose text is `None` does not raise there; `book_name` is then Python `None`
(modelled as `none`), which makes the later `book_name + ".tmp"` raise
`TypeError`. -/
def bookNameOf (reply : XNode) : Option String :=
  match findPath reply metadataPath with
  | none => some "Book"
  | some m =>
    match findPath m [adDC "title"] with
    | none => some "Book"
    | some t => XNode.text t

/-- Python `bytes.startswith`. -/
def bytesStartWith : List Nat → List Nat → Bool
  | _, [] => true
  | [], _ :: _ => false
  | b :: bs, p :: ps => b = p && bytesStartWith bs ps

/-- `b"PK"`: the 2-byte zip container magic. -/
def pkMagic : List Nat := [80, 75]

/-- `b"%PDF"`: the 4-byte PDF document magic. -/
def pdfMagic : List Nat := [37, 80, 68, 70]

/-- Lines 157-162 of `worker.py`: classify the first bytes of the download
into an extension. -/
def filetypeOf (head : List Nat) : String :=
  if bytesStartWith head pkMagic then ".epub"
  else if bytesStartWith head pdfMagic then ".pdf"
  else ".bin"

/-- Observable events of one worker run. -/
inductive Event where
  | progress (msg : String)
  | finished (ok : Bool) (msg : String)
  | chdir (dir : String)
  | readHead
  | readKey
  | rename (src dst : String)
  | removeFile (f : String)
  | zipAppend (file entryName data : String)
  | patchCall (src rights dst : String) (resource : Option String)
  | decryptCall (src dst : String)
deriving DecidableEq

/-- CPython message of `str + None` (`book_name + ".tmp"` with a titled but
text-less title element). -/
def pyStrNoneAddMsg : String :=
  "unsupported operand type(s) for +: \x27NoneType\x27 and \x27str\x27"

/-- CPython message of `None.text` (missing `resource` in the rights XML). -/
def pyNoneTextMsg : String :=
  "\x27NoneType\x27 object has no attribute \x27text\x27"

/-- Per-run results of the external calls made by `_fulfill_acsm`.
`Except.error e` models the call raising an exception rendering as `e`. -/
structure FulfillEnv where
  fulfillCall : Except String (Bool × String)
  replyXml : Except String XNode
  buildRightsRes : Except String (Option String)
  downloadRet : Except String Nat
  head : List Nat
  archive : List (String × String)
  rightsXmlRes : Except String XNode
  patchRet : Except String Bool

/-- Result of a `_fulfill_acsm` run: the event trace and the entry list of
the downloaded archive after the run (meaningful on the container path). -/
structure FRun where
  events : List Event
  archive : List (String × String)

/-- Shallow embedding of `_fulfill_acsm` (lines 97-195 of `worker.py`).
All code after `os.chdir` sits inside `try ... except Exception as e:
finished(False, "Error: " + str(e)) ... finally: os.chdir(old_cwd)`, so a
raising call produces the generic terminal and the trace always ends by
restoring the working directory. -/
def fulfillBody (env : FulfillEnv) (old_cwd config_dir : String) : FRun :=
  let e0 : List Event :=
    [Event.progress "Reading ACSM file...", Event.chdir config_dir,
     Event.progress "Fulfilling book..."]
  match env.fulfillCall with
  | Except.error e =>
      ⟨e0 ++ [Event.finished false ("Error: " ++ e), Event.chdir old_cwd], env.archive⟩
  | Except.ok (success, replyData) =>
    if success then
      match env.replyXml with
      | Except.error e =>
          ⟨e0 ++ [Event.finished false ("Error: " ++ e), Event.chdir old_cwd], env.archive⟩
      | Except.ok reply =>
        match parseFulfillmentReply reply with
        | none =>
            ⟨e0 ++ [Event.finished false "Failed to parse fulfillment response",
                    Event.chdir old_cwd], env.archive⟩
        | some (_download_url, _license_token_node) =>
          match env.buildRightsRes with
          | Except.error e =>
              ⟨e0 ++ [Event.finished false ("Error: " ++ e), Event.chdir old_cwd], env.archive⟩
          | Except.ok none =>
              ⟨e0 ++ [Event.finished false "Failed to build rights.xml",
                      Event.chdir old_cwd], env.archive⟩
          | Except.ok (some rights_xml_str) =>
            let e1 := e0 ++ [Event.progress "Downloading book..."]
            match bookNameOf reply with
            | none =>
                ⟨e1 ++ [Event.finished false ("Error: " ++ pyStrNoneAddMsg),
                        Event.chdir old_cwd], env.archive⟩
            | some book_name =>
              match env.downloadRet with
              | Except.error e =>
                  ⟨e1 ++ [Event.finished false ("Error: " ++ e), Event.chdir old_cwd],
                   env.archive⟩
              | Except.ok ret =>
                if ret ≠ 200 then
                  ⟨e1 ++ [Event.finished false ("Download failed with error " ++ toString ret),
                          Event.chdir old_cwd], env.archive⟩
                else
                  let filetype := filetypeOf env.head
                  let filename := book_name ++ filetype
                  let e2 := e1 ++ [Event.readHead,
                                   Event.rename (book_name ++ ".tmp") filename]
                  if filetype = ".epub" then
                    ⟨e2 ++ [Event.zipAppend filename "META-INF/rights.xml" rights_xml_str,
                            Event.progress ("File fulfilled: " ++ filename),
                            Event.finished true ("Successfully fulfilled: " ++ filename),
                            Event.chdir old_cwd],
                     env.archive ++ [("META-INF/rights.xml", rights_xml_str)]⟩
                  else if filetype = ".pdf" then
                    let e3 := e2 ++ [Event.progress "Patching PDF encryption..."]
                    match env.rightsXmlRes with
                    | Except.error e =>
                        ⟨e3 ++ [Event.finished false ("Error: " ++ e), Event.chdir old_cwd],
                         env.archive⟩
                    | Except.ok rightsXml =>
                      match findPath rightsXml rightsResourcePath with
                      | none =>
                          ⟨e3 ++ [Event.finished false ("Error: " ++ pyNoneTextMsg),
                                  Event.chdir old_cwd], env.archive⟩
                      | some rnode =>
                        let e4 := e3 ++ [Event.rename filename ("tmp_" ++ filename),
                                         Event.patchCall ("tmp_" ++ filename) rights_xml_str
                                           filename (XNode.text rnode)]
                        match env.patchRet with
                        | Except.error e =>
                            ⟨e4 ++ [Event.finished false ("Error: " ++ e),
                                    Event.chdir old_cwd], env.archive⟩
                        | Except.ok b =>
                          let e5 := e4 ++ [Event.removeFile ("tmp_" ++ filename)]
                          if b then
                            ⟨e5 ++ [Event.finished true ("Successfully fulfilled: " ++ filename),
                                    Event.chdir old_cwd], env.archive⟩
                          else
                            ⟨e5 ++ [Event.finished false ("Failed to patch PDF: " ++ filename),
                                    Event.chdir old_cwd], env.archive⟩
                  else
                    ⟨e2 ++ [Event.finished false "Unsupported file type",
                            Event.chdir old_cwd], env.archive⟩
    else
      ⟨e0 ++ [Event.finished false ("Fulfillment failed: " ++ replyData),
              Event.chdir old_cwd], env.archive⟩

/-- Per-run results of the external calls made by `_login_adobe`. -/
structure LoginEnv where
  createDeviceKeyFile : Except String Unit
  createDeviceFile : Except String Bool
  createUser : Except String (Bool × String)
  signIn : Except String (Bool × String)
  activateDevice : Except String (Bool × String)
  exportKey : Except String String

/-- Result of a `_login_adobe` or generic body run: its event trace and, when
the body raised, the message of the escaping exception (caught by
`WorkerThread.run`). -/
structure BodyRun where
  events : List Event
  fault : Option String

/-- Shallow embedding of `_login_adobe` (lines 52-95 of `worker.py`).  The
body works inside `try ... finally: os.chdir(old_cwd)` with no `except`, so a
raising call escapes to `WorkerThread.run` after the directory is restored. -/
def loginBody (env : LoginEnv) (email old_cwd config_dir : String) : BodyRun :=
  let e0 : List Event :=
    [Event.progress "Creating device files...", Event.chdir config_dir]
  match env.createDeviceKeyFile with
  | Except.error e => ⟨e0 ++ [Event.chdir old_cwd], some e⟩
  | Except.ok _ =>
    match env.createDeviceFile with
    | Except.error e => ⟨e0 ++ [Event.chdir old_cwd], some e⟩
    | Except.ok success =>
      if success then
        let e1 := e0 ++ [Event.progress "Creating user account..."]
        match env.createUser with
        | Except.error e => ⟨e1 ++ [Event.chdir old_cwd], some e⟩
        | Except.ok (ok₁, resp₁) =>
          if ok₁ then
            let e2 := e1 ++ [Event.progress "Signing in..."]
            match env.signIn with
            | Except.error e => ⟨e2 ++ [Event.chdir old_cwd], some e⟩
            | Except.ok (ok₂, resp₂) =>
              if ok₂ then
                let e3 := e2 ++ [Event.progress "Activating device..."]
                match env.activateDevice with
                | Except.error e => ⟨e3 ++ [Event.chdir old_cwd], some e⟩
                | Except.ok (ok₃, resp₃) =>
                  if ok₃ then
                    let e4 := e3 ++ [Event.progress "Exporting keys..."]
                    match env.exportKey with
                    | Except.error e => ⟨e4 ++ [Event.chdir old_cwd], some e⟩
                    | Except.ok _ =>
                        ⟨e4 ++ [Event.finished true ("Successfully authorized as " ++ email),
                                Event.chdir old_cwd], none⟩
                  else
                    ⟨e3 ++ [Event.finished false ("Failed to activate device: " ++ resp₃),
                            Event.chdir old_cwd], none⟩
              else
                ⟨e2 ++ [Event.finished false ("Failed to sign in: " ++ resp₂),
                        Event.chdir old_cwd], none⟩
          else
            ⟨e1 ++ [Event.finished false ("Failed to create user: " ++ resp₁),
                    Event.chdir old_cwd], none⟩
      else
        ⟨e0 ++ [Event.finished false "Failed to create device file",
                Event.chdir old_cwd], none⟩

/-- Per-run results of the external calls made by `_decrypt_epub`. -/
structure DecryptEnv where
  moduleAvailable : Bool
  keyRead : Except String (List Nat)
  decryptBookRes : Except String Int

/-- Shallow embedding of `_decrypt_epub` (lines 197-223 of `worker.py`).
Both risky regions sit in their own `try/except`, so this body never lets an
exception escape. -/
def decryptBody (env : DecryptEnv) (epub_path output_path : String) : List Event :=
  if env.moduleAvailable then
    let e0 : List Event := [Event.progress "Reading key file..."]
    match env.keyRead with
    | Except.error e =>
        e0 ++ [Event.finished false ("Failed to read key file: " ++ e)]
    | Except.ok _ =>
      let e1 := e0 ++ [Event.readKey, Event.progress "Decrypting EPUB...",
                       Event.decryptCall epub_path output_path]
      match env.decryptBookRes with
      | Except.error e =>
          e1 ++ [Event.finished false ("Decryption error: " ++ e)]
      | Except.ok result =>
        if result = 0 then
          e1 ++ [Event.finished true ("Successfully decrypted to: " ++ output_path)]
        else if result = 1 then
          e1 ++ [Event.finished false "EPUB is DRM-free"]
        else if result = 2 then
          e1 ++ [Event.finished false "Failed to decrypt: wrong key"]
        else
          e1 ++ [Event.finished false ("Decryption failed with error code " ++ toString result)]
  else
    [Event.finished false "ineptepub module not available"]

/-- Arguments and external-call results of one `WorkerThread`. -/
structure WorkerEnv where
  login : LoginEnv
  fulfill : FulfillEnv
  decrypt : DecryptEnv
  email : String
  epubPath : String
  outputPath : String
  oldCwd : String
  configDir : String

/-- Shallow embedding of `WorkerThread.run` (lines 41-50 of `worker.py`): the
task dispatch, with `except Exception` turning a fault of the body into a
terminal failure notification. -/
def runWorker (task : String) (w : WorkerEnv) : List Event :=
  if task = "login" then
    let b := loginBody w.login w.email w.oldCwd w.configDir
    match b.fault with
    | none => b.events
    | some e => b.events ++ [Event.finished false ("Error: " ++ e)]
  else if task = "fulfill" then
    (fulfillBody w.fulfill w.oldCwd w.configDir).events
  else if task = "decrypt" then
    decryptBody w.decrypt w.epubPath w.outputPath
  else
    []

/-- Is the event a terminal (`finished`) notification? -/
def isTerminal : Event → Bool
  | Event.finished _ _ => true
  | _ => false

/-- Is the event a Qt notification (`progress` or `finished` signal)? -/
def isNotif : Event → Bool
  | Event.progress _ => true
  | Event.finished _ _ => true
  | _ => false

/-- Is the event a working-directory change? -/
def isChdir : Event → Bool
  | Event.chdir _ => true
  | _ => false

/-- Number of terminal notifications in a trace. -/
def terminalCount (evs : List Event) : Nat :=
  (evs.filter isTerminal).length

/-- A notification sequence consisting of progress messages followed by
exactly one terminal notification. -/
def progressesThenTerminal : List Event → Bool
  | [Event.finished _ _] => true
  | Event.progress _ :: rest => progressesThenTerminal rest
  | _ => false

/-- Working directory after replaying the trace from `init`. -/
def cwdAfter (init : String) (evs : List Event) : String :=
  evs.foldl (fun d e => match e with | Event.chdir d2 => d2 | _ => d) init

/-- A notification sequence consisting solely of progress messages. -/
def allProgress : List Event → Bool
  | [] => true
  | Event.progress _ :: rest => allProgress rest
  | _ => false

/-- Concrete `src` element used by the sample replies. -/
def srcNodeW : XNode := XNode.elem (adNS "src") (some "http://example.org/book") []

/-- Concrete `resource` element of the sample rights document. -/
def resourceNodeW : XNode := XNode.elem (adNS "resource") (some "urn:resource") []

/-- Concrete `licenseToken` element used by the sample replies. -/
def tokenNodeW : XNode := XNode.elem (adNS "licenseToken") none [resourceNodeW]

/-- A well-formed fulfillment reply: `src`, `licenseToken` and
`metadata`/`title` all present. -/
def replyFull : XNode :=
  XNode.elem "envelope" none
    [XNode.elem (adNS "fulfillmentResult") none
      [XNode.elem (adNS "resourceItemInfo") none
        [srcNodeW, tokenNodeW,
         XNode.elem (adNS "metadata") none
           [XNode.elem (adDC "title") (some "My Book") []]]]]

/-- A reply missing the `src` (download URL) element. -/
def replyNoSrc : XNode :=
  XNode.elem "envelope" none
    [XNode.elem (adNS "fulfillmentResult") none
      [XNode.elem (adNS "resourceItemInfo") none [tokenNodeW]]]

/-- A reply missing only the `licenseToken` element. -/
def replyNoToken : XNode :=
  XNode.elem "envelope" none
    [XNode.elem (adNS "fulfillmentResult") none
      [XNode.elem (adNS "resourceItemInfo") none [srcNodeW]]]

/-- The rights document re-parsed on the document (PDF) path. -/
def rightsXmlW : XNode :=
  XNode.elem (adNS "rights") none
    [XNode.elem (adNS "licenseToken") none [resourceNodeW]]

/-- Environment of a run whose reply lacks only the `licenseToken` element
and whose rights-building step returns null. -/
def envTok : FulfillEnv :=
  ⟨Except.ok (true, "replyData"), Except.ok replyNoToken, Except.ok none,
   Except.ok 200, [80, 75], [], Except.error "unused", Except.ok true⟩

/-- Sample login environment in which every external call succeeds. -/
def loginEnvW : LoginEnv :=
  ⟨Except.ok (), Except.ok true, Except.ok (true, "ok"), Except.ok (true, "ok"),
   Except.ok (true, "ok"), Except.ok "adobekey.der"⟩

/-- Sample decrypt environment. -/
def decryptEnvW : DecryptEnv := ⟨true, Except.ok [1, 2], Except.ok 0⟩

/-- Sample worker environment. -/
def workerEnvW : WorkerEnv :=
  ⟨loginEnvW, envTok, decryptEnvW, "user@example.org", "in.epub", "out.epub",
   "/old", "/cfg"⟩

/-- Two string concatenations differ whenever their front parts differ at a
character position inside both fronts. -/
theorem appendNeAt (p q a b : String) (n : Nat) (hp : n < p.data.length)
    (hq : n < q.data.length) (h : p.data[n]? ≠ q.data[n]?) :
    p ++ a ≠ q ++ b := by
  intro hEq
  apply h
  have hd : p.data ++ a.data = q.data ++ b.data := by
    have h2 := congrArg String.data hEq
    simpa [String.data_append] using h2
  calc p.data[n]? = (p.data ++ a.data)[n]? := (List.getElem?_append_left hp).symm
    _ = (q.data ++ b.data)[n]? := by rw [hd]
    _ = q.data[n]? := List.getElem?_append_left hq

/-- Variant of `appendNeAt` with a fixed right-hand string. -/
theorem appendNeRight (p q a : String) (n : Nat) (hp : n < p.data.length)
    (hq : n < q.data.length) (h : p.data[n]? ≠ q.data[n]?) :
    p ++ a ≠ q := by
  intro hEq
  exact appendNeAt p q a "" n hp hq h (by rw [hEq, String.append_empty])

/-- A byte head bearing the document magic cannot bear the container magic. -/
theorem pdf_not_pk (bs : List Nat) (h : bytesStartWith bs pdfMagic = true) :
    bytesStartWith bs pkMagic = false := by
  cases bs with
  | nil => simp [bytesStartWith, pdfMagic] at h
  | cons b rest =>
    simp [bytesStartWith, pdfMagic] at h
    obtain ⟨hb, -⟩ := h
    subst hb
    simp [bytesStartWith, pkMagic]

/-- Claim C3: classification of downloaded content is a pure function of the
byte head alone: a head starting with the 2-byte container magic `PK` is
classified as a container (extension `.epub`), a head starting with the
4-byte document magic `%PDF` as a document (extension `.pdf`), and every
other head as unknown (extension `.bin`). -/
theorem C3_classify_by_magic (bs : List Nat) :
    (bytesStartWith bs pkMagic = true → filetypeOf bs = ".epub") ∧
    (bytesStartWith bs pdfMagic = true → filetypeOf bs = ".pdf") ∧
    (bytesStartWith bs pkMagic = false → bytesStartWith bs pdfMagic = false →
      filetypeOf bs = ".bin") := by
  refine ⟨fun h => by simp [filetypeOf, h], fun h => ?_,
          fun h1 h2 => by simp [filetypeOf, h1, h2]⟩
  simp [filetypeOf, h, pdf_not_pk bs h]

/-- Claim C3, witness: concrete heads of each class. -/
theorem C3_classify_by_magic_witness :
    filetypeOf [80, 75, 3, 4] = ".epub" ∧ filetypeOf [37, 80, 68, 70, 49] = ".pdf" ∧
    filetypeOf [82, 73, 70, 70] = ".bin" :=
  ⟨(C3_classify_by_magic [80, 75, 3, 4]).1 (by decide),
   (C3_classify_by_magic [37, 80, 68, 70, 49]).2.1 (by decide),
   (C3_classify_by_magic [82, 73, 70, 70]).2.2 (by decide) (by decide)⟩

/-- Claim C2: for every key material, source and destination, the decrypt
dispatcher maps the `decryptBook` result code totally: 0 yields the success
terminal, 1 the DRM-free failure, 2 the wrong-key failure, and any other
code the generic failure naming that code; in every case exactly one
terminal notification is emitted. -/
theorem C2_decrypt_code_mapping (p o : String) (k : List Nat) (code : Int) :
    (code = 0 → decryptBody ⟨true, Except.ok k, Except.ok code⟩ p o =
       [Event.progress "Reading key file...", Event.readKey,
        Event.progress "Decrypting EPUB...", Event.decryptCall p o,
        Event.finished true ("Successfully decrypted to: " ++ o)]) ∧
    (code = 1 → decryptBody ⟨true, Except.ok k, Except.ok code⟩ p o =
       [Event.progress "Reading key file...", Event.readKey,
        Event.progress "Decrypting EPUB...", Event.decryptCall p o,
        Event.finished false "EPUB is DRM-free"]) ∧
    (code = 2 → decryptBody ⟨true, Except.ok k, Except.ok code⟩ p o =
       [Event.progress "Reading key file...", Event.readKey,
        Event.progress "Decrypting EPUB...", Event.decryptCall p o,
        Event.finished false "Failed to decrypt: wrong key"]) ∧
    (code ≠ 0 → code ≠ 1 → code ≠ 2 →
       decryptBody ⟨true, Except.ok k, Except.ok code⟩ p o =
       [Event.progress "Reading key file...", Event.readKey,
        Event.progress "Decrypting EPUB...", Event.decryptCall p o,
        Event.finished false ("Decryption failed with error code " ++ toString code)]) ∧
    terminalCount (decryptBody ⟨true, Except.ok k, Except.ok code⟩ p o) = 1 := by
  refine ⟨fun h => by simp [decryptBody, h],
          fun h => by simp [decryptBody, h],
          fun h => by simp [decryptBody, h],
          fun h0 h1 h2 => by simp [decryptBody, h0, h1, h2], ?_⟩
  by_cases h0 : code = 0
  · simp [decryptBody, terminalCount, isTerminal, h0, List.filter]
  by_cases h1 : code = 1
  · simp [decryptBody, terminalCount, isTerminal, h0, h1, List.filter]
  by_cases h2 : code = 2
  · simp [decryptBody, terminalCount, isTerminal, h0, h1, h2, List.filter]
  · simp [decryptBody, terminalCount, isTerminal, h0, h1, h2, List.filter]

/-- Claim C2, witness: an unmapped code (7) yields the generic failure. -/
theorem C2_decrypt_code_mapping_witness :
    decryptBody ⟨true, Except.ok [0], Except.ok 7⟩ "s.epub" "d.epub" =
      [Event.progress "Reading key file...", Event.readKey,
       Event.progress "Decrypting EPUB...", Event.decryptCall "s.epub" "d.epub",
       Event.finished false ("Decryption failed with error code " ++ toString (7 : Int))] :=
  (C2_decrypt_code_mapping "s.epub" "d.epub" [0] 7).2.2.2.1
    (by decide) (by decide) (by decide)

/-- Claim C6: when reading the key file raises, `_decrypt_epub` terminates
with the key-read failure message, never invokes `decryptBook`, and that
message is distinct from every decryption-logic failure message. -/
theorem C6_key_read_failure (p o e : String) (dbr : Except String Int) :
    decryptBody ⟨true, Except.error e, dbr⟩ p o =
      [Event.progress "Reading key file...",
       Event.finished false ("Failed to read key file: " ++ e)] ∧
    (∀ a b, Event.decryptCall a b ∉ decryptBody ⟨true, Except.error e, dbr⟩ p o) ∧
    "Failed to read key file: " ++ e ≠ "EPUB is DRM-free" ∧
    "Failed to read key file: " ++ e ≠ "Failed to decrypt: wrong key" ∧
    (∀ s, "Failed to read key file: " ++ e ≠ "Decryption error: " ++ s) ∧
    (∀ n : Int, "Failed to read key file: " ++ e ≠
      "Decryption failed with error code " ++ toString n) := by
  refine ⟨by simp [decryptBody], by simp [decryptBody], ?_, ?_, ?_, ?_⟩
  · exact appendNeRight _ _ _ 0 (by decide) (by decide) (by decide)
  · exact appendNeRight _ _ _ 10 (by decide) (by decide) (by decide)
  · intro s; exact appendNeAt _ _ _ _ 0 (by decide) (by decide) (by decide)
  · intro n; exact appendNeAt _ _ _ _ 0 (by decide) (by decide) (by decide)

/-- Claim C6, witness. -/
theorem C6_key_read_failure_witness :
    decryptBody ⟨true, Except.error "boom", Except.ok 0⟩ "in.epub" "out.epub" =
      [Event.progress "Reading key file...",
       Event.finished false ("Failed to read key file: " ++ "boom")] :=
  (C6_key_read_failure "in.epub" "out.epub" "boom" (Except.ok 0)).1

/-- Claim C10: when the `ineptepub` module failed to import, `_decrypt_epub`
emits exactly the one terminal failure naming the module and returns without
reading the key file or invoking any decryption operation. -/
theorem C10_module_unavailable (p o : String) (kr : Except String (List Nat))
    (dbr : Except String Int) :
    decryptBody ⟨false, kr, dbr⟩ p o =
      [Event.finished false "ineptepub module not available"] ∧
    Event.readKey ∉ decryptBody ⟨false, kr, dbr⟩ p o ∧
    (∀ a b, Event.decryptCall a b ∉ decryptBody ⟨false, kr, dbr⟩ p o) ∧
    terminalCount (decryptBody ⟨false, kr, dbr⟩ p o) = 1 := by
  refine ⟨by simp [decryptBody], by simp [decryptBody], by simp [decryptBody],
          by simp [decryptBody, terminalCount, isTerminal, List.filter]⟩

/-- Claim C10, witness. -/
theorem C10_module_unavailable_witness :
    decryptBody ⟨false, Except.ok [], Except.ok 0⟩ "a.epub" "b.epub" =
      [Event.finished false "ineptepub module not available"] :=
  (C10_module_unavailable "a.epub" "b.epub" (Except.ok []) (Except.ok 0)).1

/-- Appending extra candidate children never disturbs a successful
ElementPath search. -/
theorem findPathFrom_append (p : List String) (cs ds : List XNode) (r : XNode)
    (h : findPathFrom p cs = some r) : findPathFrom p (cs ++ ds) = some r := by
  cases p with
  | nil => simp [findPathFrom] at h
  | cons t rest =>
    simp only [findPathFrom] at h ⊢
    rw [List.findSome?_append, h]
    rfl

/-- The parse-failure message differs from every generic error terminal. -/
theorem parse_msg_ne_err (e : String) :
    "Failed to parse fulfillment response" ≠ "Error: " ++ e :=
  Ne.symm (appendNeRight "Error: " "Failed to parse fulfillment response" e 0
    (by decide) (by decide) (by decide))

/-- The parse-failure message differs from every download-failure terminal. -/
theorem parse_msg_ne_dl (r : Nat) :
    "Failed to parse fulfillment response" ≠
      "Download failed with error " ++ toString r :=
  Ne.symm (appendNeRight "Download failed with error "
    "Failed to parse fulfillment response" (toString r) 0
    (by decide) (by decide) (by decide))

/-- The parse-failure message differs from every patch-failure terminal. -/
theorem parse_msg_ne_patch (fn : String) :
    "Failed to parse fulfillment response" ≠ "Failed to patch PDF: " ++ fn :=
  Ne.symm (appendNeRight "Failed to patch PDF: "
    "Failed to parse fulfillment response" fn 12
    (by decide) (by decide) (by decide))

/-- The parse-failure message differs from the rights-build terminal. -/
theorem parse_msg_ne_build :
    "Failed to parse fulfillment response" ≠ "Failed to build rights.xml" := by
  decide

/-- The parse-failure message differs from the unsupported-type terminal. -/
theorem parse_msg_ne_unsupported :
    "Failed to parse fulfillment response" ≠ "Unsupported file type" := by
  decide

/-- After a successful parse step the parse-failure terminal can no longer
occur in a fulfillment run. -/
theorem parse_msg_not_after (old cfg rd : String) (reply : XNode)
    (u : Option String) (tok : Option XNode) (br : Except String (Option String))
    (dl : Except String Nat) (hd : List Nat) (ar : List (String × String))
    (rr : Except String XNode) (pr : Except String Bool)
    (hp : parseFulfillmentReply reply = some (u, tok)) :
    Event.finished false "Failed to parse fulfillment response" ∉
      (fulfillBody ⟨Except.ok (true, rd), Except.ok reply, br, dl, hd, ar, rr, pr⟩
        old cfg).events := by
  rcases br with e | orights
  · simp [fulfillBody, hp, parse_msg_ne_err]
  rcases orights with _ | rights
  · simp [fulfillBody, hp, parse_msg_ne_build]
  rcases hbn : bookNameOf reply with _ | bn
  · simp [fulfillBody, hp, hbn, parse_msg_ne_err]
  rcases dl with e | ret
  · simp [fulfillBody, hp, hbn, parse_msg_ne_err]
  by_cases hret : ret = 200
  case neg => simp [fulfillBody, hp, hbn, hret, parse_msg_ne_dl]
  case pos =>
  subst hret
  by_cases hft : filetypeOf hd = ".epub"
  · simp [fulfillBody, hp, hbn, hft]
  by_cases hft2 : filetypeOf hd = ".pdf"
  case neg => simp [fulfillBody, hp, hbn, hft, hft2, parse_msg_ne_unsupported]
  case pos =>
  rcases rr with e | rXml
  · simp [fulfillBody, hp, hbn, hft, hft2, parse_msg_ne_err]
  rcases hres : findPath rXml rightsResourcePath with _ | rnode
  · simp [fulfillBody, hp, hbn, hft, hft2, hres, parse_msg_ne_err]
  rcases pr with e | b
  · simp [fulfillBody, hp, hbn, hft, hft2, hres, parse_msg_ne_err]
  cases b with
  | false => simp [fulfillBody, hp, hbn, hft, hft2, hres, parse_msg_ne_patch]
  | true => simp [fulfillBody, hp, hbn, hft, hft2, hres]

/-- Claim C1, amended: a reply lacking the `src` (download URL) element
terminates the run with the message "Failed to parse fulfillment response";
a reply lacking only the `licenseToken` element still passes the parse step
(the absent token is carried as `none` into rights building) and the run
never emits the parse-failure terminal; appending extra unknown sibling
elements preserves a successful parse and its extracted download URL; and a
reply with a missing `metadata` element or a missing `title` element gets
the placeholder title "Book". -/
theorem C1_parse_fulfillment_response :
    (∀ (old cfg rd : String) (reply : XNode) (br : Except String (Option String))
       (dl : Except String Nat) (hd : List Nat) (ar : List (String × String))
       (rr : Except String XNode) (pr : Except String Bool),
       findPath reply srcPath = none →
       (fulfillBody ⟨Except.ok (true, rd), Except.ok reply, br, dl, hd, ar, rr, pr⟩
          old cfg).events =
         [Event.progress "Reading ACSM file...", Event.chdir cfg,
          Event.progress "Fulfilling book...",
          Event.finished false "Failed to parse fulfillment response",
          Event.chdir old]) ∧
    (∀ (old cfg rd : String) (reply srcNode : XNode)
       (br : Except String (Option String)) (dl : Except String Nat)
       (hd : List Nat) (ar : List (String × String)) (rr : Except String XNode)
       (pr : Except String Bool),
       findPath reply srcPath = some srcNode →
       findPath reply licenseTokenPath = none →
       parseFulfillmentReply reply = some (XNode.text srcNode, none) ∧
       Event.finished false "Failed to parse fulfillment response" ∉
         (fulfillBody ⟨Except.ok (true, rd), Except.ok reply, br, dl, hd, ar, rr, pr⟩
            old cfg).events) ∧
    (∀ (tag : String) (txt : Option String) (cs extra : List XNode)
       (u : Option String) (tok : Option XNode),
       parseFulfillmentReply (XNode.elem tag txt cs) = some (u, tok) →
       ∃ tok2, parseFulfillmentReply (XNode.elem tag txt (cs ++ extra)) = some (u, tok2) ∧
         (∀ t0, tok = some t0 → tok2 = some t0)) ∧
    (∀ reply : XNode, findPath reply metadataPath = none →
       bookNameOf reply = some "Book") ∧
    (∀ (reply m : XNode), findPath reply metadataPath = some m →
       findPath m [adDC "title"] = none → bookNameOf reply = some "Book") := by
  refine ⟨?_, ?_, ?_, ?_, ?_⟩
  · intro old cfg rd reply br dl hd ar rr pr hsrc
    simp [fulfillBody, parseFulfillmentReply, hsrc]
  · intro old cfg rd reply srcNode br dl hd ar rr pr hsrc htok
    have hp : parseFulfillmentReply reply = some (XNode.text srcNode, none) := by
      simp [parseFulfillmentReply, hsrc, htok]
    exact ⟨hp, parse_msg_not_after old cfg rd reply _ _ br dl hd ar rr pr hp⟩
  · intro tag txt cs extra u tok hparse
    simp only [parseFulfillmentReply, findPath, XNode.children] at hparse ⊢
    rcases hsrc : findPathFrom srcPath cs with _ | s
    · rw [hsrc] at hparse; simp at hparse
    · rw [hsrc] at hparse
      simp only [Option.some.injEq, Prod.mk.injEq] at hparse
      obtain ⟨hu, htok⟩ := hparse
      rw [findPathFrom_append srcPath cs extra s hsrc]
      refine ⟨findPathFrom licenseTokenPath (cs ++ extra), by simp [hu], ?_⟩
      intro t0 ht0
      rw [← htok] at ht0
      exact findPathFrom_append licenseTokenPath cs extra t0 ht0
  · intro reply hmeta
    simp [bookNameOf, hmeta]
  · intro reply m hmeta htitle
    simp [bookNameOf, hmeta, htitle]

/-- Claim C1, counterexample to the original claim: a reply that lacks only
the `licenseToken` element does not terminate the run with the parse-failure
message; with the rights-building step returning null, this run fails with
the rights-build terminal instead. -/
theorem C1_counterexample :
    findPath replyNoToken srcPath = some srcNodeW ∧
    findPath replyNoToken licenseTokenPath = none ∧
    Event.finished false "Failed to parse fulfillment response" ∉
      (fulfillBody envTok "/old" "/cfg").events ∧
    Event.finished false "Failed to build rights.xml" ∈
      (fulfillBody envTok "/old" "/cfg").events := by
  refine ⟨rfl, rfl, ?_, by decide⟩
  decide

/-- Claim C1, witness: the amended claim at concrete replies. -/
theorem C1_parse_fulfillment_response_witness :
    ((fulfillBody ⟨Except.ok (true, "rd"), Except.ok replyNoSrc, Except.ok none,
        Except.ok 200, [], [], Except.error "u", Except.ok true⟩ "/old" "/cfg").events =
      [Event.progress "Reading ACSM file...", Event.chdir "/cfg",
       Event.progress "Fulfilling book...",
       Event.finished false "Failed to parse fulfillment response",
       Event.chdir "/old"]) ∧
    parseFulfillmentReply replyNoToken = some (XNode.text srcNodeW, none) ∧
    bookNameOf replyNoToken = some "Book" :=
  ⟨(C1_parse_fulfillment_response.1 "/old" "/cfg" "rd" replyNoSrc (Except.ok none)
      (Except.ok 200) [] [] (Except.error "u") (Except.ok true) rfl),
   (C1_parse_fulfillment_response.2.1 "/old" "/cfg" "rd" replyNoToken srcNodeW
      (Except.ok none) (Except.ok 200) [] [] (Except.error "u") (Except.ok true)
      rfl rfl).1,
   (C1_parse_fulfillment_response.2.2.2.1 replyNoToken rfl)⟩

/-- Claim C4: on a document-classified run the patch operation is invoked
with the resource identifier re-extracted from the rights document and the
renamed temporary copy of the original bytes; the temporary copy is removed
for both patch outcomes; the run succeeds exactly when the patch succeeds
and otherwise fails with the patch-specific message naming the file. -/
theorem C4_pdf_patch (old cfg rd bn rights : String) (reply srcNode rXml rnode : XNode)
    (hd : List Nat) (ar : List (String × String)) (b : Bool)
    (h1 : findPath reply srcPath = some srcNode)
    (h2 : bookNameOf reply = some bn)
    (h3 : filetypeOf hd = ".pdf")
    (h4 : findPath rXml rightsResourcePath = some rnode) :
    (fulfillBody ⟨Except.ok (true, rd), Except.ok reply, Except.ok (some rights),
        Except.ok 200, hd, ar, Except.ok rXml, Except.ok b⟩ old cfg).events =
      [Event.progress "Reading ACSM file...", Event.chdir cfg,
       Event.progress "Fulfilling book...", Event.progress "Downloading book...",
       Event.readHead, Event.rename (bn ++ ".tmp") (bn ++ ".pdf"),
       Event.progress "Patching PDF encryption...",
       Event.rename (bn ++ ".pdf") ("tmp_" ++ (bn ++ ".pdf")),
       Event.patchCall ("tmp_" ++ (bn ++ ".pdf")) rights (bn ++ ".pdf")
         (XNode.text rnode),
       Event.removeFile ("tmp_" ++ (bn ++ ".pdf")),
       Event.finished b (if b then "Successfully fulfilled: " ++ (bn ++ ".pdf")
                         else "Failed to patch PDF: " ++ (bn ++ ".pdf")),
       Event.chdir old] := by
  have hp : parseFulfillmentReply reply =
      some (XNode.text srcNode, findPath reply licenseTokenPath) := by
    simp [parseFulfillmentReply, h1]
  cases b with
  | false => simp [fulfillBody, hp, h2, h3, h4]
  | true => simp [fulfillBody, hp, h2, h3, h4]

/-- Claim C4, witness: a failing patch on a concrete PDF run still removes
the temporary copy and reports the patch-specific failure. -/
theorem C4_pdf_patch_witness :
    (fulfillBody ⟨Except.ok (true, "rd"), Except.ok replyFull,
        Except.ok (some "RIGHTS"), Except.ok 200, [37, 80, 68, 70], [],
        Except.ok rightsXmlW, Except.ok false⟩ "/old" "/cfg").events =
      [Event.progress "Reading ACSM file...", Event.chdir "/cfg",
       Event.progress "Fulfilling book...", Event.progress "Downloading book...",
       Event.readHead, Event.rename ("My Book" ++ ".tmp") ("My Book" ++ ".pdf"),
       Event.progress "Patching PDF encryption...",
       Event.rename ("My Book" ++ ".pdf") ("tmp_" ++ ("My Book" ++ ".pdf")),
       Event.patchCall ("tmp_" ++ ("My Book" ++ ".pdf")) "RIGHTS"
         ("My Book" ++ ".pdf") (XNode.text resourceNodeW),
       Event.removeFile ("tmp_" ++ ("My Book" ++ ".pdf")),
       Event.finished false (if false then "Successfully fulfilled: " ++ ("My Book" ++ ".pdf")
                             else "Failed to patch PDF: " ++ ("My Book" ++ ".pdf")),
       Event.chdir "/old"] :=
  C4_pdf_patch "/old" "/cfg" "rd" "My Book" "RIGHTS" replyFull srcNodeW rightsXmlW
    resourceNodeW [37, 80, 68, 70] [] false rfl rfl (by decide) rfl

/-- Claim C5: a download returning a non-200 status terminates the run with
a failure message carrying that status code, and no rename and no content
classification (head read) is performed. -/
theorem C5_download_failure (old cfg rd bn rights : String) (reply srcNode : XNode)
    (hd : List Nat) (ar : List (String × String)) (rr : Except String XNode)
    (pr : Except String Bool) (ret : Nat)
    (h1 : findPath reply srcPath = some srcNode)
    (h2 : bookNameOf reply = some bn)
    (h3 : ret ≠ 200) :
    (fulfillBody ⟨Except.ok (true, rd), Except.ok reply, Except.ok (some rights),
        Except.ok ret, hd, ar, rr, pr⟩ old cfg).events =
      [Event.progress "Reading ACSM file...", Event.chdir cfg,
       Event.progress "Fulfilling book...", Event.progress "Downloading book...",
       Event.finished false ("Download failed with error " ++ toString ret),
       Event.chdir old] ∧
    (∃ front, "Download failed with error " ++ toString ret = front ++ toString ret) ∧
    Event.readHead ∉
      (fulfillBody ⟨Except.ok (true, rd), Except.ok reply, Except.ok (some rights),
        Except.ok ret, hd, ar, rr, pr⟩ old cfg).events ∧
    (∀ a b2, Event.rename a b2 ∉
      (fulfillBody ⟨Except.ok (true, rd), Except.ok reply, Except.ok (some rights),
        Except.ok ret, hd, ar, rr, pr⟩ old cfg).events) := by
  have hp : parseFulfillmentReply reply =
      some (XNode.text srcNode, findPath reply licenseTokenPath) := by
    simp [parseFulfillmentReply, h1]
  have hev : (fulfillBody ⟨Except.ok (true, rd), Except.ok reply, Except.ok (some rights),
      Except.ok ret, hd, ar, rr, pr⟩ old cfg).events =
      [Event.progress "Reading ACSM file...", Event.chdir cfg,
       Event.progress "Fulfilling book...", Event.progress "Downloading book...",
       Event.finished false ("Download failed with error " ++ toString ret),
       Event.chdir old] := by
    simp [fulfillBody, hp, h2, h3]
  refine ⟨hev, ⟨"Download failed with error ", rfl⟩, ?_, ?_⟩
  · simp [hev]
  · intro a b2; simp [hev]

/-- Claim C5, witness: a 404 download on a concrete run. -/
theorem C5_download_failure_witness :
    (fulfillBody ⟨Except.ok (true, "rd"), Except.ok replyFull,
        Except.ok (some "RIGHTS"), Except.ok 404, [80, 75], [],
        Except.error "u", Except.ok true⟩ "/old" "/cfg").events =
      [Event.progress "Reading ACSM file...", Event.chdir "/cfg",
       Event.progress "Fulfilling book...", Event.progress "Downloading book...",
       Event.finished false ("Download failed with error " ++ toString (404 : Nat)),
       Event.chdir "/old"] :=
  (C5_download_failure "/old" "/cfg" "rd" "My Book" "RIGHTS" replyFull srcNodeW
    [80, 75] [] (Except.error "u") (Except.ok true) 404 rfl rfl (by decide)).1

/-- Claim C8: on a container-classified run, embedding the rights document
appends it as a new archive entry, leaves every pre-existing entry intact
(position-wise lookup of all original entries is unchanged), and the run
terminates with the success terminal. -/
theorem C8_epub_rights_append (old cfg rd bn rights : String) (reply srcNode : XNode)
    (hd : List Nat) (ar : List (String × String)) (rr : Except String XNode)
    (pr : Except String Bool)
    (h1 : findPath reply srcPath = some srcNode)
    (h2 : bookNameOf reply = some bn)
    (h3 : filetypeOf hd = ".epub") :
    (fulfillBody ⟨Except.ok (true, rd), Except.ok reply, Except.ok (some rights),
        Except.ok 200, hd, ar, rr, pr⟩ old cfg).archive =
      ar ++ [("META-INF/rights.xml", rights)] ∧
    (∀ i, i < ar.length →
      (fulfillBody ⟨Except.ok (true, rd), Except.ok reply, Except.ok (some rights),
        Except.ok 200, hd, ar, rr, pr⟩ old cfg).archive[i]? = ar[i]?) ∧
    (fulfillBody ⟨Except.ok (true, rd), Except.ok reply, Except.ok (some rights),
        Except.ok 200, hd, ar, rr, pr⟩ old cfg).events =
      [Event.progress "Reading ACSM file...", Event.chdir cfg,
       Event.progress "Fulfilling book...", Event.progress "Downloading book...",
       Event.readHead, Event.rename (bn ++ ".tmp") (bn ++ ".epub"),
       Event.zipAppend (bn ++ ".epub") "META-INF/rights.xml" rights,
       Event.progress ("File fulfilled: " ++ (bn ++ ".epub")),
       Event.finished true ("Successfully fulfilled: " ++ (bn ++ ".epub")),
       Event.chdir old] := by
  have hp : parseFulfillmentReply reply =
      some (XNode.text srcNode, findPath reply licenseTokenPath) := by
    simp [parseFulfillmentReply, h1]
  have harch : (fulfillBody ⟨Except.ok (true, rd), Except.ok reply,
      Except.ok (some rights), Except.ok 200, hd, ar, rr, pr⟩ old cfg).archive =
      ar ++ [("META-INF/rights.xml", rights)] := by
    simp [fulfillBody, hp, h2, h3]
  refine ⟨harch, ?_, by simp [fulfillBody, hp, h2, h3]⟩
  intro i hi
  rw [harch]
  exact List.getElem?_append_left hi

/-- Claim C8, witness: a concrete container run with one pre-existing
archive entry. -/
theorem C8_epub_rights_append_witness :
    (fulfillBody ⟨Except.ok (true, "rd"), Except.ok replyFull,
        Except.ok (some "RIGHTS"), Except.ok 200, [80, 75, 3, 4],
        [("mimetype", "application/epub+zip")], Except.error "u",
        Except.ok true⟩ "/old" "/cfg").archive =
      [("mimetype", "application/epub+zip")] ++ [("META-INF/rights.xml", "RIGHTS")] ∧
    (fulfillBody ⟨Except.ok (true, "rd"), Except.ok replyFull,
        Except.ok (some "RIGHTS"), Except.ok 200, [80, 75, 3, 4],
        [("mimetype", "application/epub+zip")], Except.error "u",
        Except.ok true⟩ "/old" "/cfg").archive[0]? =
      [("mimetype", "application/epub+zip")][0]? :=
  ⟨(C8_epub_rights_append "/old" "/cfg" "rd" "My Book" "RIGHTS" replyFull srcNodeW
      [80, 75, 3, 4] [("mimetype", "application/epub+zip")] (Except.error "u")
      (Except.ok true) rfl rfl (by decide)).1,
   (C8_epub_rights_append "/old" "/cfg" "rd" "My Book" "RIGHTS" replyFull srcNodeW
      [80, 75, 3, 4] [("mimetype", "application/epub+zip")] (Except.error "u")
      (Except.ok true) rfl rfl (by decide)).2.1 0 (by decide)⟩

/-- Appending a terminal to an all-progress notification sequence yields the
progress-then-one-terminal shape. -/
theorem progressesThenTerminal_concat (l : List Event) (b : Bool) (m : String)
    (h : allProgress l = true) :
    progressesThenTerminal (l ++ [Event.finished b m]) = true := by
  induction l with
  | nil => simp [progressesThenTerminal]
  | cons a rest ih => cases a <;> simp_all [allProgress, progressesThenTerminal]

/-- Unfolding of the runner at the login task. -/
theorem runWorker_login (w : WorkerEnv) :
    runWorker "login" w =
      (match (loginBody w.login w.email w.oldCwd w.configDir).fault with
       | none => (loginBody w.login w.email w.oldCwd w.configDir).events
       | some e => (loginBody w.login w.email w.oldCwd w.configDir).events ++
           [Event.finished false ("Error: " ++ e)]) := rfl

/-- Unfolding of the runner at the fulfill task. -/
theorem runWorker_fulfill (w : WorkerEnv) :
    runWorker "fulfill" w = (fulfillBody w.fulfill w.oldCwd w.configDir).events := rfl

/-- Unfolding of the runner at the decrypt task. -/
theorem runWorker_decrypt (w : WorkerEnv) :
    runWorker "decrypt" w = decryptBody w.decrypt w.epubPath w.outputPath := rfl

/-- Shape of every `_login_adobe` run: the directory is switched to the
configuration directory first and restored last on every path; a non-faulting
run emits progress messages then exactly one terminal; a faulting run emits
only progress notifications (the terminal is added by `run`). -/
theorem loginBody_shape (env : LoginEnv) (email old cfg : String) :
    cwdAfter old (loginBody env email old cfg).events = old ∧
    ((loginBody env email old cfg).events.filter isChdir).head? =
      some (Event.chdir cfg) ∧
    (loginBody env email old cfg).events.getLast? = some (Event.chdir old) ∧
    ((loginBody env email old cfg).fault = none →
      progressesThenTerminal ((loginBody env email old cfg).events.filter isNotif) = true ∧
      terminalCount (loginBody env email old cfg).events = 1) ∧
    (∀ e, (loginBody env email old cfg).fault = some e →
      allProgress ((loginBody env email old cfg).events.filter isNotif) = true ∧
      terminalCount (loginBody env email old cfg).events = 0) := by
  obtain ⟨cdk, cdf, cu, si, ad, ek⟩ := env
  rcases cdk with e | u
  · simp [loginBody, cwdAfter, isChdir, isNotif, isTerminal, terminalCount,
      progressesThenTerminal, allProgress, List.filter]
  rcases cdf with e | sb
  · simp [loginBody, cwdAfter, isChdir, isNotif, isTerminal, terminalCount,
      progressesThenTerminal, allProgress, List.filter]
  cases sb with
  | false =>
    simp [loginBody, cwdAfter, isChdir, isNotif, isTerminal, terminalCount,
      progressesThenTerminal, allProgress, List.filter]
  | true =>
  rcases cu with e | p1
  · simp [loginBody, cwdAfter, isChdir, isNotif, isTerminal, terminalCount,
      progressesThenTerminal, allProgress, List.filter]
  obtain ⟨ok1, r1⟩ := p1
  cases ok1 with
  | false =>
    simp [loginBody, cwdAfter, isChdir, isNotif, isTerminal, terminalCount,
      progressesThenTerminal, allProgress, List.filter]
  | true =>
  rcases si with e | p2
  · simp [loginBody, cwdAfter, isChdir, isNotif, isTerminal, terminalCount,
      progressesThenTerminal, allProgress, List.filter]
  obtain ⟨ok2, r2⟩ := p2
  cases ok2 with
  | false =>
    simp [loginBody, cwdAfter, isChdir, isNotif, isTerminal, terminalCount,
      progressesThenTerminal, allProgress, List.filter]
  | true =>
  rcases ad with e | p3
  · simp [loginBody, cwdAfter, isChdir, isNotif, isTerminal, terminalCount,
      progressesThenTerminal, allProgress, List.filter]
  obtain ⟨ok3, r3⟩ := p3
  cases ok3 with
  | false =>
    simp [loginBody, cwdAfter, isChdir, isNotif, isTerminal, terminalCount,
      progressesThenTerminal, allProgress, List.filter]
  | true =>
  rcases ek with e | kf
  · simp [loginBody, cwdAfter, isChdir, isNotif, isTerminal, terminalCount,
      progressesThenTerminal, allProgress, List.filter]
  · simp [loginBody, cwdAfter, isChdir, isNotif, isTerminal, terminalCount,
      progressesThenTerminal, allProgress, List.filter]

/-- Shape of every `_fulfill_acsm` run: directory switched first and restored
last on every path, and the notification sequence is progresses followed by
exactly one terminal. -/
theorem fulfillBody_shape (env : FulfillEnv) (old cfg : String) :
    cwdAfter old (fulfillBody env old cfg).events = old ∧
    ((fulfillBody env old cfg).events.filter isChdir).head? =
      some (Event.chdir cfg) ∧
    (fulfillBody env old cfg).events.getLast? = some (Event.chdir old) ∧
    progressesThenTerminal ((fulfillBody env old cfg).events.filter isNotif) = true ∧
    terminalCount (fulfillBody env old cfg).events = 1 := by
  obtain ⟨fc, rx, br, dl, hd, ar, rr, pr⟩ := env
  rcases fc with e | p
  · simp [fulfillBody, cwdAfter, isChdir, isNotif, isTerminal, terminalCount,
      progressesThenTerminal, List.filter]
  obtain ⟨s, rd⟩ := p
  cases s with
  | false =>
    simp [fulfillBody, cwdAfter, isChdir, isNotif, isTerminal, terminalCount,
      progressesThenTerminal, List.filter]
  | true =>
  rcases rx with e | reply
  · simp [fulfillBody, cwdAfter, isChdir, isNotif, isTerminal, terminalCount,
      progressesThenTerminal, List.filter]
  rcases hp : parseFulfillmentReply reply with _ | q
  · simp [fulfillBody, hp, cwdAfter, isChdir, isNotif, isTerminal, terminalCount,
      progressesThenTerminal, List.filter]
  obtain ⟨u, tok⟩ := q
  rcases br with e | orights
  · simp [fulfillBody, hp, cwdAfter, isChdir, isNotif, isTerminal, terminalCount,
      progressesThenTerminal, List.filter]
  rcases orights with _ | rights
  · simp [fulfillBody, hp, cwdAfter, isChdir, isNotif, isTerminal, terminalCount,
      progressesThenTerminal, List.filter]
  rcases hbn : bookNameOf reply with _ | bn
  · simp [fulfillBody, hp, hbn, cwdAfter, isChdir, isNotif, isTerminal, terminalCount,
      progressesThenTerminal, List.filter]
  rcases dl with e | ret
  · simp [fulfillBody, hp, hbn, cwdAfter, isChdir, isNotif, isTerminal, terminalCount,
      progressesThenTerminal, List.filter]
  by_cases hret : ret = 200
  case neg =>
    simp [fulfillBody, hp, hbn, hret, cwdAfter, isChdir, isNotif, isTerminal,
      terminalCount, progressesThenTerminal, List.filter]
  case pos =>
  subst hret
  by_cases hft : filetypeOf hd = ".epub"
  · simp [fulfillBody, hp, hbn, hft, cwdAfter, isChdir, isNotif, isTerminal,
      terminalCount, progressesThenTerminal, List.filter]
  by_cases hft2 : filetypeOf hd = ".pdf"
  case neg =>
    simp [fulfillBody, hp, hbn, hft, hft2, cwdAfter, isChdir, isNotif, isTerminal,
      terminalCount, progressesThenTerminal, List.filter]
  case pos =>
  rcases rr with e | rXml
  · simp [fulfillBody, hp, hbn, hft, hft2, cwdAfter, isChdir, isNotif, isTerminal,
      terminalCount, progressesThenTerminal, List.filter]
  rcases hres : findPath rXml rightsResourcePath with _ | rnode
  · simp [fulfillBody, hp, hbn, hft, hft2, hres, cwdAfter, isChdir, isNotif,
      isTerminal, terminalCount, progressesThenTerminal, List.filter]
  rcases pr with e | b
  · simp [fulfillBody, hp, hbn, hft, hft2, hres, cwdAfter, isChdir, isNotif,
      isTerminal, terminalCount, progressesThenTerminal, List.filter]
  cases b with
  | false =>
    simp [fulfillBody, hp, hbn, hft, hft2, hres, cwdAfter, isChdir, isNotif,
      isTerminal, terminalCount, progressesThenTerminal, List.filter]
  | true =>
    simp [fulfillBody, hp, hbn, hft, hft2, hres, cwdAfter, isChdir, isNotif,
      isTerminal, terminalCount, progressesThenTerminal, List.filter]

/-- Shape of every `_decrypt_epub` run: progresses followed by exactly one
terminal notification. -/
theorem decryptBody_shape (env : DecryptEnv) (p o : String) :
    progressesThenTerminal ((decryptBody env p o).filter isNotif) = true ∧
    terminalCount (decryptBody env p o) = 1 := by
  obtain ⟨ma, kr, dbr⟩ := env
  cases ma with
  | false =>
    simp [decryptBody, isNotif, isTerminal, terminalCount, progressesThenTerminal,
      List.filter]
  | true =>
  rcases kr with e | k
  · simp [decryptBody, isNotif, isTerminal, terminalCount, progressesThenTerminal,
      List.filter]
  rcases dbr with e | code
  · simp [decryptBody, isNotif, isTerminal, terminalCount, progressesThenTerminal,
      List.filter]
  by_cases h0 : code = 0
  · simp [decryptBody, h0, isNotif, isTerminal, terminalCount,
      progressesThenTerminal, List.filter]
  by_cases h1 : code = 1
  · simp [decryptBody, h0, h1, isNotif, isTerminal, terminalCount,
      progressesThenTerminal, List.filter]
  by_cases h2 : code = 2
  · simp [decryptBody, h0, h1, h2, isNotif, isTerminal, terminalCount,
      progressesThenTerminal, List.filter]
  · simp [decryptBody, h0, h1, h2, isNotif, isTerminal, terminalCount,
      progressesThenTerminal, List.filter]

/-- Claim C9: both the authorization run and the fulfillment run switch the
working directory to the configuration directory as their first directory
change, restore the prior directory as their very last action, and replaying
any trace leaves the working directory where it started — on every path,
including every failure path. -/
theorem C9_cwd_restore (lenv : LoginEnv) (fenv : FulfillEnv) (email old cfg : String) :
    cwdAfter old (loginBody lenv email old cfg).events = old ∧
    ((loginBody lenv email old cfg).events.filter isChdir).head? =
      some (Event.chdir cfg) ∧
    (loginBody lenv email old cfg).events.getLast? = some (Event.chdir old) ∧
    cwdAfter old (fulfillBody fenv old cfg).events = old ∧
    ((fulfillBody fenv old cfg).events.filter isChdir).head? =
      some (Event.chdir cfg) ∧
    (fulfillBody fenv old cfg).events.getLast? = some (Event.chdir old) :=
  ⟨(loginBody_shape lenv email old cfg).1, (loginBody_shape lenv email old cfg).2.1,
   (loginBody_shape lenv email old cfg).2.2.1, (fulfillBody_shape fenv old cfg).1,
   (fulfillBody_shape fenv old cfg).2.1, (fulfillBody_shape fenv old cfg).2.2.1⟩

/-- Claim C9, witness: concrete login and fulfill runs. -/
theorem C9_cwd_restore_witness :
    cwdAfter "/old" (loginBody loginEnvW "user@example.org" "/old" "/cfg").events =
      "/old" ∧
    (fulfillBody envTok "/old" "/cfg").events.getLast? = some (Event.chdir "/old") :=
  ⟨(C9_cwd_restore loginEnvW envTok "user@example.org" "/old" "/cfg").1,
   (C9_cwd_restore loginEnvW envTok "user@example.org" "/old" "/cfg").2.2.2.2.2⟩

/-- Claim C7: for every invocation of the runner with one of its three task
types, the notification sequence is the workflow's progress messages followed
by exactly one terminal notification; a fault escaping the login body is
converted into a trailing terminal failure notification, so no invocation
ends with zero terminals and no fault escapes. -/
theorem C7_runner_notifications (w : WorkerEnv) (task : String)
    (h : task = "login" ∨ task = "fulfill" ∨ task = "decrypt") :
    progressesThenTerminal ((runWorker task w).filter isNotif) = true ∧
    terminalCount (runWorker task w) = 1 ∧
    (task = "login" → ∀ e,
      (loginBody w.login w.email w.oldCwd w.configDir).fault = some e →
      (runWorker task w).getLast? = some (Event.finished false ("Error: " ++ e))) := by
  rcases h with h | h | h <;> subst h
  · rcases hf : (loginBody w.login w.email w.oldCwd w.configDir).fault with _ | e0
    · have h4 := (loginBody_shape w.login w.email w.oldCwd w.configDir).2.2.2.1 hf
      refine ⟨?_, ?_, ?_⟩
      · simpa [runWorker_login, hf] using h4.1
      · simpa [runWorker_login, hf] using h4.2
      · intro _ e he
        exact absurd he (by simp)
    · have h5 := (loginBody_shape w.login w.email w.oldCwd w.configDir).2.2.2.2 e0 hf
      refine ⟨?_, ?_, ?_⟩
      · rw [runWorker_login, hf]
        rw [List.filter_append]
        have hfil : List.filter isNotif [Event.finished false ("Error: " ++ e0)] =
            [Event.finished false ("Error: " ++ e0)] := by simp [isNotif, List.filter]
        rw [hfil]
        exact progressesThenTerminal_concat _ _ _ h5.1
      · have hcnt := h5.2
        simp only [terminalCount] at hcnt ⊢
        rw [runWorker_login, hf]
        simp [List.filter_append, isTerminal, hcnt]
      · intro _ e he
        have he2 : e0 = e := by injection he
        subst he2
        rw [runWorker_login, hf]
        simp [List.getLast?_concat]
  · have hs := fulfillBody_shape w.fulfill w.oldCwd w.configDir
    refine ⟨?_, ?_, ?_⟩
    · simpa [runWorker_fulfill] using hs.2.2.2.1
    · simpa [runWorker_fulfill] using hs.2.2.2.2
    · intro habs
      exact absurd habs (by decide)
  · have hs := decryptBody_shape w.decrypt w.epubPath w.outputPath
    refine ⟨?_, ?_, ?_⟩
    · simpa [runWorker_decrypt] using hs.1
    · simpa [runWorker_decrypt] using hs.2
    · intro habs
      exact absurd habs (by decide)

/-- Claim C7, witness: the decrypt task at a concrete environment. -/
theorem C7_runner_notifications_witness :
    progressesThenTerminal ((runWorker "decrypt" workerEnvW).filter isNotif) = true ∧
    terminalCount (runWorker "decrypt" workerEnvW) = 1 :=
  ⟨(C7_runner_notifications workerEnvW "decrypt" (Or.inr (Or.inr rfl))).1,
   (C7_runner_notifications workerEnvW "decrypt" (Or.inr (Or.inr rfl))).2.1⟩

end Deacsm
